import Mathlib

/-!
Verification of the static error-surface analyzer of `awesome_errors`
(`src/awesome_errors/analysis/error_analyzer.py`) and its OpenAPI response
synthesizer (`src/awesome_errors/analysis/decorators.py`).

The Python code is shallowly embedded: the analyzed routine's AST is an
inductive type mirroring the `ast` nodes the analyzer inspects, the mutable
`ErrorAnalyzer` instance state is threaded explicitly, and Python `set`s of
strings are modelled as duplicate-free lists (`setInsert`/`setUnionList`),
with the reported `error_codes` obtained through a sorting function modelling
Python's `sorted`.  Python string helpers used by the analyzer (`strip`,
`startswith`, `lower`, `replace`, `in`) are re-implemented structurally over
character lists so that every definition evaluates by `rfl`/`decide`.
-/

/-- Python `pat in s` on character lists: `charsPre p s` tests whether `p`
is an initial segment of `s`. -/
def charsPre : List Char → List Char → Bool
  | [], _ => true
  | _ :: _, [] => false
  | c :: cs, d :: ds => c == d && charsPre cs ds

/-- `charsSub p s` tests whether `p` occurs contiguously inside `s`. -/
def charsSub (p : List Char) : List Char → Bool
  | [] => charsPre p []
  | c :: rest => charsPre p (c :: rest) || charsSub p rest

/-- Python `pat in s` for strings. -/
def pyIn (s pat : String) : Bool := charsSub pat.data s.data

/-- Python `s.startswith(pat)`. -/
def pyStartsWith (s pat : String) : Bool := charsPre pat.data s.data

/-- Python whitespace recognized by `str.strip()`. -/
def isPySpace (c : Char) : Bool :=
  c == ' ' || c == '\t' || c == '\n' || c == '\x0d' || c == '\x0b' || c == '\x0c'

/-- Python `s.strip()`. -/
def pyStrip (s : String) : String :=
  ⟨((s.data.dropWhile isPySpace).reverse.dropWhile isPySpace).reverse⟩

/-- ASCII lower-casing of one character (`str.lower` restricted to the ASCII
identifiers and error codes occurring in the analyzer's tables). -/
def charLower (c : Char) : Char :=
  if 65 ≤ c.toNat ∧ c.toNat ≤ 90 then Char.ofNat (c.toNat + 32) else c

/-- Python `s.lower()`. -/
def pyLower (s : String) : String := ⟨s.data.map charLower⟩

/-- Python `s.replace(c, d)` for single characters (`"_"` → `"-"`). -/
def pyReplaceChar (s : String) (c d : Char) : String :=
  ⟨s.data.map (fun x => if x == c then d else x)⟩

/-- Python `s.replace(c, "")` for a single character (`replace("@", "")`). -/
def pyDropChar (s : String) (c : Char) : String :=
  ⟨s.data.filter (fun x => !(x == c))⟩

/-- Python `s.split(sep)[0]` for a single-character separator. -/
def pyTakeBefore (s : String) (c : Char) : String :=
  ⟨s.data.takeWhile (fun x => !(x == c))⟩

/-- Code-point comparison of character lists, as used by Python `sorted` on
`str` (lexicographic on code points). -/
def charsLt : List Char → List Char → Bool
  | [], [] => false
  | [], _ :: _ => true
  | _ :: _, [] => false
  | c :: cs, d :: ds =>
    if c.toNat < d.toNat then true
    else if d.toNat < c.toNat then false
    else charsLt cs ds

/-- Python `a < b` on strings. -/
def strLt (a b : String) : Bool := charsLt a.data b.data

/-- Insert into an ascending list (auxiliary for `pySorted`). -/
def sortedInsert (x : String) : List String → List String
  | [] => [x]
  | y :: ys => if strLt y x then y :: sortedInsert x ys else x :: y :: ys

/-- Python `sorted(list(...))` over strings (insertion sort, ascending). -/
def pySorted : List String → List String
  | [] => []
  | x :: xs => sortedInsert x (pySorted xs)

/-- Python `set.add`: duplicate-free-list model of a `set` of strings. -/
def setInsert (x : String) (xs : List String) : List String :=
  if x ∈ xs then xs else xs ++ [x]

/-- Python `set.update(iterable)`. -/
def setUnionList (xs : List String) (l : List String) : List String :=
  l.foldl (fun acc c => setInsert c acc) xs

/-- Python `set - set` (difference). -/
def setDiffList (xs : List String) (l : List String) : List String :=
  xs.filter (fun c => !(l.contains c))

/-- Python `".".join(parts)`. -/
def joinDot : List String → String
  | [] => ""
  | [p] => p
  | p :: q :: rest => p ++ "." ++ joinDot (q :: rest)

/-- Constant payload of an `ast.Constant` node, as far as the analyzer
inspects it (`isinstance(value, str)` / `isinstance(value, int)`). -/
inductive PyConst where
  | str (s : String)
  | int (n : Int)
  | other
deriving DecidableEq

/-- Expression nodes visited by `ErrorAnalyzer` (`ast.Constant`, `ast.Name`,
`ast.Attribute`, `ast.Call`, `ast.Await`); every other expression kind is
collapsed into `otherE`, keeping its child expressions so that the generic
`ast.NodeVisitor` traversal still reaches them.  Keywords are
`(keyword.arg, keyword.value)` pairs.  `lineno` models
`getattr(node, "lineno", None)` on the nodes whose line the analyzer reads. -/
inductive Expr where
  | constant (v : PyConst)
  | name (id : String) (lineno : Option Nat)
  | attributeE (value : Expr) (attr : String)
  | call (func : Expr) (args : List Expr) (keywords : List (Option String × Expr))
      (lineno : Option Nat)
  | awaitE (value : Expr)
  | otherE (children : List Expr)

/-- Statement nodes: `ast.Raise` (fields `exc`, `cause`), bare expression
statements, and every other statement kind collapsed with its child
expressions and child statement blocks (e.g. `ast.FunctionDef` keeps its
decorator expressions and body). -/
inductive Stmt where
  | raiseS (exc : Option Expr) (cause : Option Expr)
  | exprS (value : Expr)
  | otherS (exprs : List Expr) (body : List Stmt)

/-- `ast.Module` body. -/
def PyModule := List Stmt

/-- One entry of `self.error_details`, as built by `_extract_error_info` /
`_extract_http_exception_info` (the `status_code` key exists only on
`HTTPException` entries). -/
structure ErrorInfo where
  type : String
  code : String
  message : String
  statusCode : Option Int
  line : Option Nat
deriving DecidableEq

/-- One entry of `self.decorator_errors` built by `_analyze_decorator_line`. -/
structure DecoratorError where
  decorator : String
  possibleErrors : List String
  type : String
deriving DecidableEq

/-- `ErrorAnalyzer._get_function_name`. -/
def getFunctionName : Expr → Option String
  | .name id _ => some id
  | .attributeE _ a => some a
  | _ => none

/-- `ErrorAnalyzer._is_app_error_class`. -/
def isAppErrorClass (n : String) : Bool :=
  n == "AppError" || n == "ValidationError" || n == "AuthError" ||
  n == "NotFoundError" || n == "DatabaseError" || n == "BusinessLogicError" ||
  n == "HTTPException"

/-- `ErrorAnalyzer._get_default_error_code` (dict lookup with default). -/
def getDefaultErrorCode (className : String) : String :=
  if className = "ValidationError" then "VALIDATION_FAILED"
  else if className = "AuthError" then "AUTH_REQUIRED"
  else if className = "NotFoundError" then "RESOURCE_NOT_FOUND"
  else if className = "DatabaseError" then "DB_QUERY_ERROR"
  else if className = "BusinessLogicError" then "BUSINESS_RULE_VIOLATION"
  else if className = "AppError" then "INTERNAL_ERROR"
  else if className = "HTTPException" then "HTTP_EXCEPTION"
  else "UNKNOWN_ERROR"

/-- `ErrorAnalyzer._map_status_code_to_error_code` (dict lookup with default). -/
def mapStatusCodeToErrorCode (statusCode : Int) : String :=
  if statusCode = 400 then "VALIDATION_FAILED"
  else if statusCode = 401 then "AUTH_REQUIRED"
  else if statusCode = 403 then "AUTH_PERMISSION_DENIED"
  else if statusCode = 404 then "RESOURCE_NOT_FOUND"
  else if statusCode = 409 then "RESOURCE_CONFLICT"
  else if statusCode = 422 then "BUSINESS_RULE_VIOLATION"
  else if statusCode = 500 then "INTERNAL_ERROR"
  else "HTTP_EXCEPTION"

/-- `ErrorAnalyzer._extract_string_value`. -/
def extractStringValue : Expr → Option String
  | .constant (.str s) => some s
  | _ => none

/-- The keyword scan of `_extract_error_code`: the first keyword whose `arg`
is `"code"` decides the result (the loop `return`s inside its body). -/
def findCodeKeyword : List (Option String × Expr) → Option Expr
  | [] => none
  | (a, v) :: rest => if a = some "code" then some v else findCodeKeyword rest

/-- Body of the `keyword.arg == "code"` branch of `_extract_error_code`:
a string constant, `ErrorCode.MEMBER`, or `ErrorCode("...")`; anything else
yields `"UNKNOWN_ERROR"`. -/
def extractCodeFromValue : Expr → String
  | .constant (.str s) => s
  | .attributeE (.name id _) a => if id = "ErrorCode" then a else "UNKNOWN_ERROR"
  | .call (.name id _) cargs _ _ =>
    if id = "ErrorCode" then
      match cargs with
      | .constant (.str s) :: _ => s
      | _ => "UNKNOWN_ERROR"
    else "UNKNOWN_ERROR"
  | _ => "UNKNOWN_ERROR"

/-- The positional-argument scan of `_extract_error_code`: the first argument
that is a call of `ErrorCode` with at least one argument decides the result;
`_extract_string_value(arg.args[0]) or "UNKNOWN_ERROR"` (an empty-string
constant is falsy in Python and also yields the default). -/
def findErrorCodePositional : List Expr → Option String
  | [] => none
  | arg :: rest =>
    match arg with
    | .call f cargs _ _ =>
      match cargs with
      | c0 :: _ =>
        if getFunctionName f = some "ErrorCode" then
          some (match extractStringValue c0 with
                | some s => if s = "" then "UNKNOWN_ERROR" else s
                | none => "UNKNOWN_ERROR")
        else findErrorCodePositional rest
      | [] => findErrorCodePositional rest
    | _ => findErrorCodePositional rest

/-- `ErrorAnalyzer._extract_error_code`, applied to the components of the
raised `ast.Call` node (`func`, `args`, `keywords`). -/
def extractErrorCode (f : Expr) (args : List Expr)
    (kws : List (Option String × Expr)) : String :=
  match findCodeKeyword kws with
  | some v => extractCodeFromValue v
  | none =>
    match findErrorCodePositional args with
    | some c => c
    | none => getDefaultErrorCode ((getFunctionName f).getD "unknown")

/-- The keyword scan of `_extract_error_message`: the first keyword whose
`arg` is `"message"` decides (`_extract_string_value(...) or "Unknown error"`,
an empty string being falsy). -/
def findMessageKeyword : List (Option String × Expr) → Option Expr
  | [] => none
  | (a, v) :: rest => if a = some "message" then some v else findMessageKeyword rest

/-- `ErrorAnalyzer._extract_error_message` on the raised call's components:
first positional argument if it is a non-empty string constant, else the
first `message` keyword, else `"Unknown error"`. -/
def extractErrorMessage (args : List Expr)
    (kws : List (Option String × Expr)) : String :=
  let fromPositional :=
    match args with
    | a0 :: _ => extractStringValue a0
    | [] => none
  match fromPositional with
  | some s =>
    if s = "" then
      match findMessageKeyword kws with
      | some v =>
        match extractStringValue v with
        | some m => if m = "" then "Unknown error" else m
        | none => "Unknown error"
      | none => "Unknown error"
    else s
  | none =>
    match findMessageKeyword kws with
    | some v =>
      match extractStringValue v with
      | some m => if m = "" then "Unknown error" else m
      | none => "Unknown error"
    | none => "Unknown error"

/-- The keyword loop of `_extract_http_exception_info`: starting from
`(500, "HTTP Error")`, a `status_code` keyword with an integer constant
updates the status and a `detail` keyword with a string constant updates the
message (later keywords override earlier ones). -/
def httpKwFold : List (Option String × Expr) → Int × String → Int × String
  | [], acc => acc
  | (a, v) :: rest, (status, msg) =>
    if a = some "status_code" then
      match v with
      | .constant (.int n) => httpKwFold rest (n, msg)
      | _ => httpKwFold rest (status, msg)
    else if a = some "detail" then
      match v with
      | .constant (.str s) => httpKwFold rest (status, s)
      | _ => httpKwFold rest (status, msg)
    else httpKwFold rest (status, msg)

/-- `ErrorAnalyzer._extract_http_exception_info`: keyword scan, then a first
positional argument that is an integer constant overrides the status; the
code is `_map_status_code_to_error_code(status_code)`. -/
def extractHttpExceptionInfo (args : List Expr)
    (kws : List (Option String × Expr)) (ln : Option Nat) : ErrorInfo :=
  let kwResult := httpKwFold kws (500, "HTTP Error")
  let statusCode :=
    match args with
    | .constant (.int n) :: _ => n
    | _ => kwResult.1
  { type := "HTTPException"
    code := mapStatusCodeToErrorCode statusCode
    message := kwResult.2
    statusCode := some statusCode
    line := ln }

/-- `ErrorAnalyzer._extract_error_info`: a raised call of a recognized
application-error class (with dedicated `HTTPException` handling), or a bare
`raise name` re-raise; anything else yields no occurrence. -/
def extractErrorInfo : Expr → Option ErrorInfo
  | .call f args kws ln =>
    match getFunctionName f with
    | some n =>
      if isAppErrorClass n then
        if n = "HTTPException" then some (extractHttpExceptionInfo args kws ln)
        else some { type := n
                    code := extractErrorCode f args kws
                    message := extractErrorMessage args kws
                    statusCode := none
                    line := ln }
      else none
    | none => none
  | .name _ ln =>
    some { type := "unknown"
           code := "UNKNOWN_ERROR"
           message := "Re-raised error"
           statusCode := none
           line := ln }
  | _ => none

/-- The `parts` list built by the loop of `_get_attr_chain` (outermost
attribute first, then the base `ast.Name` if the chain ends in one). -/
def attrChainParts : Expr → List String
  | .attributeE v a => a :: attrChainParts v
  | .name id _ => [id]
  | _ => []

/-- `ErrorAnalyzer._get_attr_chain`: `".".join(reversed(parts))`. -/
def getAttrChain (e : Expr) : String := joinDot (attrChainParts e).reverse

/-- `ErrorAnalyzer._get_call_string`: `"chain()"` for attribute calls,
`"name()"` for plain-name calls, `""` otherwise. -/
def getCallString : Expr → String
  | .call f _ _ _ =>
    match f with
    | .attributeE v a => getAttrChain (.attributeE v a) ++ "()"
    | .name id _ => id ++ "()"
    | _ => ""
  | _ => ""

/-- The mutable fields of an `ErrorAnalyzer` instance (`self.errors`,
`self.error_details`, `self.visited_functions`, `self.decorator_errors`,
`self.current_depth`).  The two string sets are duplicate-free lists. -/
structure AnalyzerState where
  errors : List String
  errorDetails : List ErrorInfo
  visitedFunctions : List String
  decoratorErrors : List DecoratorError
  currentDepth : Int
deriving DecidableEq

/-- The analyzer state right after the reset at the top of `analyze`. -/
def initState : AnalyzerState :=
  { errors := [], errorDetails := [], visitedFunctions := []
    decoratorErrors := [], currentDepth := 0 }

/-- The source of an analyzed callable as the analyzer sees it:
`inspect.getsourcelines` text, and the `ast.parse(textwrap.dedent(source))`
result (`none` models a `SyntaxError`, which `_analyze_function` does not
catch). -/
structure PySource where
  lines : List String
  tree : Option (List Stmt)

/-- A Python callable as consumed by `ErrorAnalyzer`: `__module__`,
`__qualname__`, `__name__`, and its retrievable source (`none` models
`inspect.getsource` raising `OSError`/`TypeError`). -/
structure PyFunction where
  module : String
  qualname : String
  name : String
  source : Option PySource

/-- The codes contributed by `_add_sqlalchemy_errors`: the `code.value`s of
`SQLErrorConverter.SQL_PATTERNS` (in table order) followed by the three
codes added explicitly. -/
def sqlalchemyErrorCodes : List String :=
  ["DB_DUPLICATE_ENTRY", "DB_INVALID_REFERENCE", "DB_MISSING_REQUIRED",
   "DB_CONSTRAINT_VIOLATION",
   "DB_DUPLICATE_ENTRY", "DB_INVALID_REFERENCE", "DB_MISSING_REQUIRED",
   "DB_DUPLICATE_ENTRY", "DB_INVALID_REFERENCE", "DB_MISSING_REQUIRED",
   "DB_CONNECTION_ERROR", "DB_QUERY_ERROR", "DB_TRANSACTION_ERROR"]

/-- `ErrorAnalyzer._add_sqlalchemy_errors`. -/
def addSqlalchemyErrors (st : AnalyzerState) : AnalyzerState :=
  { st with errors := setUnionList st.errors sqlalchemyErrorCodes }

/-- The SQLAlchemy call-shape substrings of `_analyze_call_context`. -/
def sqlalchemyCallShapes : List String :=
  ["session.", ".execute(", ".commit(", ".rollback(", ".query(", ".add(",
   ".delete(", ".merge(", ".flush("]

/-- The Pydantic call-shape substrings of `_analyze_call_context`. -/
def pydanticCallShapes : List String :=
  [".model_validate(", ".parse_obj(", ".model_dump(", ".model_validate_json("]

/-- `ErrorAnalyzer._analyze_call_context`. -/
def analyzeCallContext (node : Expr) (st : AnalyzerState) : AnalyzerState :=
  let callStr := getCallString node
  if sqlalchemyCallShapes.any (fun p => pyIn callStr p) then
    addSqlalchemyErrors st
  else if pydanticCallShapes.any (fun p => pyIn callStr p) then
    { st with errors := setInsert "VALIDATION_FAILED" st.errors }
  else if pyIn callStr "await " then
    { st with errors := setUnionList st.errors ["INTERNAL_ERROR", "TIMEOUT_ERROR"] }
  else st

/-- `ErrorAnalyzer._analyze_builtin_function` (fallback when the source of
the callable cannot be retrieved). -/
def analyzeBuiltinFunction (f : PyFunction) (st : AnalyzerState) : AnalyzerState :=
  if pyIn (pyLower f.module) "sqlalchemy" then addSqlalchemyErrors st
  else if (f.name = "loads" ∨ f.name = "dumps") ∧ pyIn f.module "json" then
    { st with errors := setInsert "INVALID_FORMAT" st.errors }
  else if pyIn f.module "requests" ∨ pyIn f.module "httpx" then
    { st with errors := setUnionList st.errors ["INTERNAL_ERROR", "NETWORK_ERROR"] }
  else st

/-- `ErrorAnalyzer._resolve_function_call` is a stub: the source reads
`return None` unconditionally ("This is complex and would require runtime
introspection").  The return type `Option Empty` records that no call is
ever resolved, making the descent branch of `visit_Call` provably dead. -/
def resolveFunctionCall (_node : Expr) : Option Empty := none

/-- `ErrorAnalyzer._resolve_method_call` is the same stub (`return None`). -/
def resolveMethodCall (_node : Expr) : Option Empty := none

/-- Exceptions that can escape `analyze` in the embedding: `ast.parse`
raising `SyntaxError` (only `OSError` and `TypeError` are caught by
`_analyze_function`). -/
inductive PyExn where
  | parseFailed
deriving DecidableEq

mutual

/-- The `ast.NodeVisitor` dispatch on statements: `visit_Raise` for
`ast.Raise` (extract an occurrence, then `generic_visit` into `exc` and
`cause`), `generic_visit` for everything else. -/
def visitStmt (st : AnalyzerState) : Stmt → AnalyzerState
  | .raiseS exc cause =>
    let st1 :=
      match exc with
      | some e =>
        match extractErrorInfo e with
        | some info =>
          { st with errors := setInsert info.code st.errors
                    errorDetails := st.errorDetails ++ [info] }
        | none => st
      | none => st
    let st2 :=
      match exc with
      | some e => visitExpr st1 e
      | none => st1
    match cause with
    | some e => visitExpr st2 e
    | none => st2
  | .exprS e => visitExpr st e
  | .otherS es body => visitStmtList (visitExprList st es) body

/-- The `ast.NodeVisitor` dispatch on expressions: `visit_Call` for
`ast.Call` (pattern matching via `_analyze_call_context`, then the
resolution attempt — provably dead since both resolvers are stubs — then
`generic_visit` into `func`, `args` and `keywords`), `generic_visit` for
everything else. -/
def visitExpr (st : AnalyzerState) : Expr → AnalyzerState
  | .call f args kws ln =>
    let st1 := analyzeCallContext (.call f args kws ln) st
    let st2 :=
      match f with
      | .attributeE v a =>
        -- `_analyze_method_call`: `resolved_method` is always `None`, so the
        -- recursive `_analyze_function(resolved_method)` body is unreachable.
        match resolveMethodCall (.call (.attributeE v a) args kws ln) with
        | some e => e.elim
        | none => st1
      | _ =>
        -- `called_func = self._resolve_function_call(node)` is always `None`,
        -- so the `_analyze_function(called_func)` descent is unreachable.
        match resolveFunctionCall (.call f args kws ln) with
        | some e => e.elim
        | none => st1
    let st3 := visitExpr st2 f
    let st4 := visitExprList st3 args
    visitKwList st4 kws
  | .attributeE v _ => visitExpr st v
  | .awaitE v => visitExpr st v
  | .name _ _ => st
  | .constant _ => st
  | .otherE es => visitExprList st es

/-- `generic_visit` over a list of child statements. -/
def visitStmtList (st : AnalyzerState) : List Stmt → AnalyzerState
  | [] => st
  | s :: ss => visitStmtList (visitStmt st s) ss

/-- `generic_visit` over a list of child expressions. -/
def visitExprList (st : AnalyzerState) : List Expr → AnalyzerState
  | [] => st
  | e :: es => visitExprList (visitExpr st e) es

/-- `generic_visit` over a list of `ast.keyword` children. -/
def visitKwList (st : AnalyzerState) : List (Option String × Expr) → AnalyzerState
  | [] => st
  | (_, v) :: ks => visitKwList (visitExpr st v) ks

end

/-- `self.visit(tree)` on the parsed `ast.Module`. -/
def visitModule (st : AnalyzerState) (m : List Stmt) : AnalyzerState :=
  visitStmtList st m

/-- The decorator table of `_analyze_decorator_line`. -/
def decoratorErrorTable (n : String) : Option (List String) :=
  if n = "require_auth" then some ["AUTH_REQUIRED", "AUTH_PERMISSION_DENIED"]
  else if n = "validate_input" then some ["VALIDATION_FAILED", "INVALID_INPUT"]
  else if n = "rate_limit" then some ["RATE_LIMIT_EXCEEDED"]
  else if n = "cache" then some ["CACHE_ERROR"]
  else none

/-- `ErrorAnalyzer._analyze_decorator_line`. -/
def analyzeDecoratorLine (line : String) (st : AnalyzerState) : AnalyzerState :=
  let name0 := pyStrip (pyDropChar line '@')
  let decoratorName :=
    if pyIn name0 "(" then pyTakeBefore name0 '(' else name0
  match decoratorErrorTable decoratorName with
  | some errs =>
    { st with errors := setUnionList st.errors errs
              decoratorErrors := st.decoratorErrors ++
                [{ decorator := decoratorName, possibleErrors := errs
                   type := "decorator_analysis" }] }
  | none => st

/-- The line scan of `_analyze_decorators`: collect stripped lines starting
with `"@"`; stop at the first stripped line starting with `"def "` (note: an
`async def` line does not match and the scan continues into the body). -/
def collectDecoratorLines : List String → List String
  | [] => []
  | line :: rest =>
    let stripped := pyStrip line
    if pyStartsWith stripped "@" then stripped :: collectDecoratorLines rest
    else if pyStartsWith stripped "def " then []
    else collectDecoratorLines rest

/-- `ErrorAnalyzer._analyze_decorators` (an `OSError`/`TypeError` from
`inspect.getsourcelines` is swallowed by `pass`). -/
def analyzeDecorators (f : PyFunction) (st : AnalyzerState) : AnalyzerState :=
  match f.source with
  | none => st
  | some src =>
    (collectDecoratorLines src.lines).foldl
      (fun acc line => analyzeDecoratorLine line acc) st

/-- `ErrorAnalyzer._analyze_function`: depth guard (the main function is
exempt), cycle guard via `self.visited_functions`, depth increment for
non-main entries, then source retrieval and the AST walk; a retrieval
failure falls back to `_analyze_builtin_function`, while a parse failure
(`SyntaxError`) escapes — it is not in the `except (OSError, TypeError)`
clause, and it also skips the closing depth decrement. -/
def analyzeFunction (maxDepth : Int) (f : PyFunction) (isMain : Bool)
    (st : AnalyzerState) : Except PyExn AnalyzerState :=
  if st.currentDepth ≥ maxDepth ∧ isMain = false then .ok st
  else
    let funcName := f.module ++ "." ++ f.qualname
    if funcName ∈ st.visitedFunctions then .ok st
    else
      let st1 := { st with visitedFunctions := setInsert funcName st.visitedFunctions }
      let st2 :=
        if isMain = false then { st1 with currentDepth := st1.currentDepth + 1 }
        else st1
      match f.source with
      | none =>
        let st3 := analyzeBuiltinFunction f st2
        .ok (if isMain = false then { st3 with currentDepth := st3.currentDepth - 1 }
             else st3)
      | some src =>
        match src.tree with
        | none => .error PyExn.parseFailed
        | some tree =>
          let st3 := visitModule st2 tree
          .ok (if isMain = false then { st3 with currentDepth := st3.currentDepth - 1 }
               else st3)

/-- The dictionary returned by `ErrorAnalyzer.analyze`. -/
structure AnalysisResult where
  functionName : String
  errorCodes : List String
  errorDetails : List ErrorInfo
  decoratorErrors : List DecoratorError
  totalErrors : Nat
  analysisDepth : Int
  maxDepthReached : Bool
deriving DecidableEq

/-- `ErrorAnalyzer.analyze`, with the prior contents of the mutable instance
fields passed in as `stPrior` (the method begins by resetting all of them)
and the final instance state returned alongside the result dictionary. -/
def analyzeWithState (f : PyFunction) (maxDepth : Int)
    (analyzeDecoratorsOpt : Bool) (stPrior : AnalyzerState) :
    Except PyExn (AnalysisResult × AnalyzerState) :=
  let _ := stPrior
  let st0 := initState
  let st1 := if analyzeDecoratorsOpt then analyzeDecorators f st0 else st0
  match analyzeFunction maxDepth f true st1 with
  | .error e => .error e
  | .ok st2 =>
    .ok ({ functionName := f.name
           errorCodes := pySorted st2.errors
           errorDetails := st2.errorDetails
           decoratorErrors := st2.decoratorErrors
           totalErrors := st2.errors.length
           analysisDepth := st2.currentDepth
           maxDepthReached := decide (st2.currentDepth ≥ maxDepth) }, st2)

/-- A helper routine that raises a recognized failure constructor:
`def helper(): raise ValidationError("bad input")`. -/
def helperF : PyFunction :=
  { module := "app.services", qualname := "helper", name := "helper"
    source := some
      { lines := ["def helper():", "    raise ValidationError(\"bad input\")"]
        tree := some
          [Stmt.otherS []
            [Stmt.raiseS
              (some (Expr.call (Expr.name "ValidationError" (some 2))
                [Expr.constant (PyConst.str "bad input")] [] (some 2))) none]] } }

/-- A routine that merely calls `helper()` — a plain, statically bindable
invocation of a function whose source is retrievable:
`def main_route(): helper()`. -/
def mainF : PyFunction :=
  { module := "app.services", qualname := "main_route", name := "main_route"
    source := some
      { lines := ["def main_route():", "    helper()"]
        tree := some
          [Stmt.otherS []
            [Stmt.exprS (Expr.call (Expr.name "helper" (some 2)) [] [] (some 2))]] } }

/-- A routine whose source is retrievable but does not parse as a standalone
unit (e.g. a lambda defined inside a multi-line expression, for which
`inspect.getsource` returns the truncated fragment `"f = (lambda: 1,"`);
`ast.parse` then raises `SyntaxError`. -/
def badF : PyFunction :=
  { module := "app.services", qualname := "<lambda>", name := "<lambda>"
    source := some { lines := ["f = (lambda: 1,"], tree := none } }

/-- A routine containing a persistence-session call and nothing else:
`def save_user(u): session.execute(u)`. -/
def sqlF : PyFunction :=
  { module := "app.services", qualname := "save_user", name := "save_user"
    source := some
      { lines := ["def save_user(u):", "    session.execute(u)"]
        tree := some
          [Stmt.otherS []
            [Stmt.exprS (Expr.call
              (Expr.attributeE (Expr.name "session" (some 2)) "execute")
              [Expr.name "u" (some 2)] [] (some 2))]] } }

/-- A routine containing an awaited call expression:
`async def load(): await fetch()`. -/
def awaitF : PyFunction :=
  { module := "app.services", qualname := "load", name := "load"
    source := some
      { lines := ["async def load():", "    await fetch()"]
        tree := some
          [Stmt.otherS []
            [Stmt.exprS (Expr.awaitE
              (Expr.call (Expr.name "fetch" (some 2)) [] [] (some 2)))]] } }

/-- Routine `A` of a cyclic call graph: `def func_a(): func_b(); raise
NotFoundError("a gone")`; `func_b` calls `func_a` back (see `funcB`). -/
def funcA : PyFunction :=
  { module := "app.cycle", qualname := "func_a", name := "func_a"
    source := some
      { lines := ["def func_a():", "    func_b()", "    raise NotFoundError(\"a gone\")"]
        tree := some
          [Stmt.otherS []
            [Stmt.exprS (Expr.call (Expr.name "func_b" (some 2)) [] [] (some 2)),
             Stmt.raiseS (some (Expr.call (Expr.name "NotFoundError" (some 3))
               [Expr.constant (PyConst.str "a gone")] [] (some 3))) none]] } }

/-- Routine `B` of the cyclic call graph: `def func_b(): func_a()`. -/
def funcB : PyFunction :=
  { module := "app.cycle", qualname := "func_b", name := "func_b"
    source := some
      { lines := ["def func_b():", "    func_a()"]
        tree := some
          [Stmt.otherS []
            [Stmt.exprS (Expr.call (Expr.name "func_a" (some 2)) [] [] (some 2))]] } }

/-- An `async`-defined routine whose body contains a decorated nested
function: the decorator scan of `_analyze_decorators` does not stop at the
`async def` header line (it only stops at lines starting with `"def "`), so
it also collects `@rate_limit` from inside the body. -/
def asyncOuterF : PyFunction :=
  { module := "app.api", qualname := "outer", name := "outer"
    source := some
      { lines := ["@require_auth", "async def outer():", "    @rate_limit",
                  "    def inner():", "        pass"]
        tree := some
          [Stmt.otherS [Expr.name "require_auth" (some 1)]
            [Stmt.otherS [Expr.name "rate_limit" (some 3)]
              [Stmt.otherS [] []]]] } }

/-- A routine raising `HTTPException(status_code=404, detail="User not
found")`, exercising the dedicated `HTTPException` handling. -/
def httpF : PyFunction :=
  { module := "app.api", qualname := "get_user", name := "get_user"
    source := some
      { lines := ["def get_user(uid):",
                  "    raise HTTPException(status_code=404, detail=\"User not found\")"]
        tree := some
          [Stmt.otherS []
            [Stmt.raiseS (some (Expr.call (Expr.name "HTTPException" (some 2)) []
              [(some "status_code", Expr.constant (PyConst.int 404)),
               (some "detail", Expr.constant (PyConst.str "User not found"))]
              (some 2))) none]] } }

/-- JSON-like values, for the OpenAPI response dictionaries built by
`_generate_openapi_responses`. -/
inductive JVal where
  | str (s : String)
  | int (n : Int)
  | arr (xs : List JVal)
  | obj (fields : List (String × JVal))

/-- `ERROR_HTTP_STATUS_MAP` from `core/error_codes.py`, keyed by the string
value of the `ErrorCode` member (a `StrEnum`). -/
def errorHttpStatusMap : List (String × Int) :=
  [("VALIDATION_FAILED", 400), ("INVALID_INPUT", 400),
   ("MISSING_REQUIRED_FIELD", 400), ("INVALID_FORMAT", 400),
   ("AUTH_REQUIRED", 401), ("AUTH_INVALID_TOKEN", 401),
   ("AUTH_TOKEN_EXPIRED", 401), ("REFRESH_TOKEN_REUSE", 401),
   ("SESSION_EXPIRED", 401),
   ("AUTH_PERMISSION_DENIED", 403), ("AUTH_INSUFFICIENT_PRIVILEGES", 403),
   ("RESOURCE_NOT_FOUND", 404), ("USER_NOT_FOUND", 404),
   ("ENTITY_NOT_FOUND", 404), ("OAUTH_PROVIDER_UNKNOWN", 404),
   ("BUSINESS_RULE_VIOLATION", 422), ("INSUFFICIENT_BALANCE", 422),
   ("OPERATION_NOT_ALLOWED", 422),
   ("UNKNOWN_ERROR", 500), ("INTERNAL_ERROR", 500),
   ("DB_CONNECTION_ERROR", 500), ("DB_QUERY_ERROR", 500),
   ("DB_TRANSACTION_ERROR", 500),
   ("DB_CONSTRAINT_VIOLATION", 409), ("DB_DUPLICATE_ENTRY", 409),
   ("DB_INVALID_REFERENCE", 422), ("DB_MISSING_REQUIRED", 422)]

/-- Association-list lookup (Python `dict.get`). -/
def assocLookup {α : Type} (key : String) : List (String × α) → Option α
  | [] => none
  | (k, v) :: rest => if k = key then some v else assocLookup key rest

/-- The status resolution of `_generate_openapi_responses`: `ErrorCode(code)`
never raises (the `StrEnum._missing_` hook builds a pseudo-member for any
string, so the `except ValueError` branch is dead) and
`ERROR_HTTP_STATUS_MAP.get(enum, 500)` is a lookup by the code's string
value with default `500`. -/
def statusForErrorCode (code : String) : Int :=
  (assocLookup code errorHttpStatusMap).getD 500

/-- The `status_groups` dictionary build: append the code to its status
group, creating the group at the end on first use (Python `dict` insertion
order). -/
def insertGroup : List (Int × List String) → Int → String → List (Int × List String)
  | [], status, code => [(status, [code])]
  | (s, cs) :: rest, status, code =>
    if s = status then (s, cs ++ [code]) :: rest
    else (s, cs) :: insertGroup rest status code

/-- `_get_status_description`. -/
def getStatusDescription (status : Int) (codes : List String) : String :=
  let base :=
    if status = 400 then "Bad Request - Validation or input errors"
    else if status = 401 then "Unauthorized - Authentication required"
    else if status = 403 then "Forbidden - Insufficient permissions"
    else if status = 404 then "Not Found - Resource not found"
    else if status = 409 then "Conflict - Resource conflict (e.g., duplicate entry)"
    else if status = 422 then "Unprocessable Entity - Business logic errors"
    else if status = 500 then "Internal Server Error - Server errors"
    else "HTTP " ++ toString status
  base ++ ". Possible error codes: " ++ joinComma codes
where
  /-- Python `", ".join(error_codes)`. -/
  joinComma : List String → String
    | [] => ""
    | [c] => c
    | c :: c2 :: rest => c ++ ", " ++ joinComma (c2 :: rest)

/-- `_get_default_error_description` (dict lookup with an f-string default). -/
def getDefaultErrorDescription (code : String) : String :=
  if code = "VALIDATION_FAILED" then "Request validation failed"
  else if code = "USER_NOT_FOUND" then "User not found"
  else if code = "AUTH_REQUIRED" then "Authentication required"
  else if code = "AUTH_PERMISSION_DENIED" then "Permission denied"
  else if code = "DB_DUPLICATE_ENTRY" then "Duplicate entry in database"
  else if code = "BUSINESS_RULE_VIOLATION" then "Business rule violated"
  else "Error: " ++ code

/-- `_get_example_details` (dict lookup with `{}` default). -/
def getExampleDetails (code : String) : JVal :=
  if code = "VALIDATION_FAILED" then
    .obj [("field_errors", .arr [.obj
      [("field", .str "email"), ("message", .str "invalid email format"),
       ("input", .str "not-an-email")]])]
  else if code = "USER_NOT_FOUND" then
    .obj [("resource", .str "user"), ("resource_id", .int 123)]
  else if code = "DB_DUPLICATE_ENTRY" then
    .obj [("table", .str "users"), ("field", .str "email"),
          ("duplicate_value", .str "user@example.com")]
  else if code = "AUTH_PERMISSION_DENIED" then
    .obj [("required_permission", .str "admin.users.delete")]
  else .obj []

/-- One entry of the `examples` dictionary built by `_generate_examples`. -/
structure ErrorExample where
  summary : String
  description : String
  value : JVal

/-- One example of `_generate_examples`: the key is
`error_code.lower().replace("_", "-")`, the description comes from
`custom_descriptions` else the default table, and the value is the example
error payload. -/
def mkErrorExample (code : String) (customDescriptions : List (String × String)) :
    String × ErrorExample :=
  let exampleName := pyReplaceChar (pyLower code) '_' '-'
  let description :=
    (assocLookup code customDescriptions).getD (getDefaultErrorDescription code)
  (exampleName,
   { summary := code ++ " example"
     description := description
     value := .obj [("error", .obj
       [("code", .str code), ("message", .str description),
        ("details", getExampleDetails code),
        ("timestamp", .str "2024-01-08T12:00:00Z"),
        ("request_id", .str "req_abc123")])] })

/-- Python `examples[example_name] = ...`: replace in place when the key
exists, else append (dict upsert). -/
def dictUpsert (xs : List (String × ErrorExample)) (k : String) (v : ErrorExample) :
    List (String × ErrorExample) :=
  match xs with
  | [] => [(k, v)]
  | (k0, v0) :: rest =>
    if k0 = k then (k, v) :: rest else (k0, v0) :: dictUpsert rest k v

/-- `_generate_examples`. -/
def generateExamples (codes : List String)
    (customDescriptions : List (String × String)) : List (String × ErrorExample) :=
  codes.foldl
    (fun acc code =>
      let e := mkErrorExample code customDescriptions
      dictUpsert acc e.1 e.2)
    []

/-- The `schema` literal of `_generate_openapi_responses`, whose only
input-dependent part is the `enum` of the `code` property. -/
def responseSchemaFor (codes : List String) : JVal :=
  .obj [("type", .str "object"),
        ("properties", .obj [("error", .obj
          [("type", .str "object"),
           ("properties", .obj
             [("code", .obj [("type", .str "string"),
                             ("enum", .arr (codes.map JVal.str)),
                             ("description", .str "Error code")]),
              ("message", .obj [("type", .str "string"),
                                ("description", .str "Error message")]),
              ("details", .obj [("type", .str "object"),
                                ("description", .str "Additional error details")]),
              ("timestamp", .obj [("type", .str "string"),
                                  ("format", .str "date-time"),
                                  ("description", .str "Error timestamp")]),
              ("request_id", .obj [("type", .str "string"),
                                   ("description", .str "Request ID for tracing")])]),
           ("required", .arr [.str "code", .str "message", .str "timestamp",
                              .str "request_id"])])]),
        ("required", .arr [.str "error"])]

/-- One response document of `_generate_openapi_responses`: the
`description`, the JSON `schema` (under `content/application~json`), and the
`examples` dictionary. -/
structure ResponseDoc where
  description : String
  schema : JVal
  examples : List (String × ErrorExample)

/-- `_generate_openapi_responses`.  Python iterates the `error_codes` set in
an unspecified hash order; the embedding fixes the canonical sorted order.
This affects only the ordering of codes inside a status group, not which
codes and statuses appear. -/
def generateOpenapiResponses (errorCodes : List String)
    (customDescriptions : List (String × String)) : List (String × ResponseDoc) :=
  let codesList := pySorted errorCodes
  let statusGroups := codesList.foldl
    (fun groups code => insertGroup groups (statusForErrorCode code) code) []
  statusGroups.map (fun g =>
    (toString g.1,
     { description := getStatusDescription g.1 g.2
       schema := responseSchemaFor g.2
       examples := generateExamples g.2 customDescriptions }))

/-- The response synthesis pipeline of the `openapi_errors` decorator after
the analysis step (`decorators.py`, lines 60–74): union the additional
codes into the discovered set, remove the excluded codes, then generate the
OpenAPI responses. -/
def synthesizeResponseDocument (discovered : List String)
    (additionalErrors excludeErrors : List String)
    (customDescriptions : List (String × String)) : List (String × ResponseDoc) :=
  let errorCodes :=
    if additionalErrors.isEmpty then discovered
    else setUnionList discovered additionalErrors
  let errorCodes2 :=
    if excludeErrors.isEmpty then errorCodes
    else setDiffList errorCodes excludeErrors
  generateOpenapiResponses errorCodes2 customDescriptions

/-- Every recorded occurrence's code is in the running error set. -/
def detailsCovered (st : AnalyzerState) : Prop :=
  ∀ i ∈ st.errorDetails, i.code ∈ st.errors

/-- Every recorded decorator prediction's codes are in the running error
set. -/
def decoratorsCovered (st : AnalyzerState) : Prop :=
  ∀ d ∈ st.decoratorErrors, ∀ c ∈ d.possibleErrors, c ∈ st.errors

/-- How every internal step of the analyzer changes the instance state:
the depth is restored, the error set only grows, and the pairing of
occurrence records (and decorator records) with the error set is kept. -/
def StateEvolves (st st' : AnalyzerState) : Prop :=
  st'.currentDepth = st.currentDepth ∧
  (∀ a ∈ st.errors, a ∈ st'.errors) ∧
  (detailsCovered st → detailsCovered st') ∧
  (decoratorsCovered st → decoratorsCovered st')

/-- A string with no space character (any syntactically valid Python
identifier satisfies this). -/
def identNoSpace (s : String) : Bool := decide (' ' ∉ s.data)

/-- All identifiers along the callee expression of a call (the part
`_get_call_string` reads) are space-free. -/
def chainOk : Expr → Bool
  | .name id _ => identNoSpace id
  | .attributeE v a => identNoSpace a && chainOk v
  | _ => true


/-- The result of `analyze` on `mainF` with `max_depth = 0`. -/
def mainRes0 : AnalysisResult :=
  { functionName := "main_route", errorCodes := [], errorDetails := []
    decoratorErrors := [], totalErrors := 0, analysisDepth := 0
    maxDepthReached := true }

/-- The final analyzer state of that run. -/
def mainSt0 : AnalyzerState :=
  { errors := [], errorDetails := [], visitedFunctions := ["app.services.main_route"]
    decoratorErrors := [], currentDepth := 0 }

/-- The result of `analyze` on `sqlF` with the default depth. -/
def sqlRes : AnalysisResult :=
  { functionName := "save_user"
    errorCodes := ["DB_CONNECTION_ERROR", "DB_CONSTRAINT_VIOLATION",
                   "DB_DUPLICATE_ENTRY", "DB_INVALID_REFERENCE",
                   "DB_MISSING_REQUIRED", "DB_QUERY_ERROR", "DB_TRANSACTION_ERROR"]
    errorDetails := [], decoratorErrors := [], totalErrors := 7
    analysisDepth := 0, maxDepthReached := false }

/-- The final analyzer state of that run. -/
def sqlSt : AnalyzerState :=
  { errors := ["DB_DUPLICATE_ENTRY", "DB_INVALID_REFERENCE", "DB_MISSING_REQUIRED",
               "DB_CONSTRAINT_VIOLATION", "DB_CONNECTION_ERROR", "DB_QUERY_ERROR",
               "DB_TRANSACTION_ERROR"]
    errorDetails := [], visitedFunctions := ["app.services.save_user"]
    decoratorErrors := [], currentDepth := 0 }

/-- The occurrence recorded for `helperF`. -/
def helperInfo : ErrorInfo :=
  { type := "ValidationError", code := "VALIDATION_FAILED", message := "bad input"
    statusCode := none, line := some 2 }

/-- The result of `analyze` on `helperF` with the default depth. -/
def helperRes : AnalysisResult :=
  { functionName := "helper", errorCodes := ["VALIDATION_FAILED"]
    errorDetails := [helperInfo], decoratorErrors := [], totalErrors := 1
    analysisDepth := 0, maxDepthReached := false }

/-- The final analyzer state of that run. -/
def helperSt : AnalyzerState :=
  { errors := ["VALIDATION_FAILED"], errorDetails := [helperInfo]
    visitedFunctions := ["app.services.helper"], decoratorErrors := []
    currentDepth := 0 }

/-- An analyzer state in which `funcB`'s qualified name is already in the
visited set. -/
def visitedStB : AnalyzerState :=
  { errors := [], errorDetails := [], visitedFunctions := ["app.cycle.func_b"]
    decoratorErrors := [], currentDepth := 0 }

theorem mem_setInsert_self (x : String) (xs : List String) :
    x ∈ setInsert x xs := by
  unfold setInsert
  split
  · assumption
  · simp

theorem setInsert_mono {a : String} (x : String) {xs : List String}
    (h : a ∈ xs) : a ∈ setInsert x xs := by
  unfold setInsert
  split
  · exact h
  · simp [h]

theorem setUnionList_mono {a : String} {xs : List String} (l : List String)
    (h : a ∈ xs) : a ∈ setUnionList xs l := by
  induction l generalizing xs with
  | nil => exact h
  | cons c cs ih =>
    unfold setUnionList
    simp only [List.foldl_cons]
    exact ih (setInsert_mono c h)

theorem mem_setUnionList_right {c : String} {l : List String}
    (xs : List String) (h : c ∈ l) : c ∈ setUnionList xs l := by
  induction l generalizing xs with
  | nil => cases h
  | cons d ds ih =>
    unfold setUnionList
    simp only [List.foldl_cons]
    rcases List.mem_cons.mp h with heq | hmem
    · subst heq
      exact setUnionList_mono ds (mem_setInsert_self c xs)
    · exact ih (setInsert d xs) hmem

theorem mem_sortedInsert (a x : String) (l : List String) :
    a ∈ sortedInsert x l ↔ a = x ∨ a ∈ l := by
  induction l with
  | nil => simp [sortedInsert]
  | cons y ys ih =>
    unfold sortedInsert
    split
    · rw [List.mem_cons, ih, List.mem_cons]
      tauto
    · rw [List.mem_cons, List.mem_cons]

theorem mem_pySorted (a : String) (l : List String) :
    a ∈ pySorted l ↔ a ∈ l := by
  induction l with
  | nil => simp [pySorted]
  | cons x xs ih =>
    unfold pySorted
    rw [mem_sortedInsert, ih, List.mem_cons]

theorem charsPre_mem {p s : List Char} (h : charsPre p s = true) :
    ∀ c ∈ p, c ∈ s := by
  induction p generalizing s with
  | nil => intro c hc; cases hc
  | cons a as ih =>
    cases s with
    | nil => simp [charsPre] at h
    | cons b bs =>
      simp only [charsPre, Bool.and_eq_true, beq_iff_eq] at h
      intro c hc
      rcases List.mem_cons.mp hc with heq | hmem
      · subst heq
        simp [h.1]
      · exact List.mem_cons_of_mem b (ih h.2 c hmem)

theorem charsSub_mem {p s : List Char} (h : charsSub p s = true) :
    ∀ c ∈ p, c ∈ s := by
  induction s with
  | nil =>
    cases p with
    | nil => intro c hc; cases hc
    | cons a as => simp [charsSub, charsPre] at h
  | cons b bs ih =>
    simp only [charsSub, Bool.or_eq_true] at h
    rcases h with hpre | hsub
    · exact charsPre_mem hpre
    · intro c hc
      exact List.mem_cons_of_mem b (ih hsub c hc)

theorem pyIn_mem {s pat : String} (h : pyIn s pat = true) :
    ∀ c ∈ pat.data, c ∈ s.data :=
  charsSub_mem h

theorem string_data_append (a b : String) : (a ++ b).data = a.data ++ b.data := by
  cases a
  cases b
  rfl

theorem stateEvolvesRefl (st : AnalyzerState) : StateEvolves st st :=
  ⟨rfl, fun _ h => h, fun h => h, fun h => h⟩

theorem stateEvolvesTrans {s1 s2 s3 : AnalyzerState}
    (h12 : StateEvolves s1 s2) (h23 : StateEvolves s2 s3) : StateEvolves s1 s3 :=
  ⟨h23.1.trans h12.1,
   fun a ha => h23.2.1 a (h12.2.1 a ha),
   fun hc => h23.2.2.1 (h12.2.2.1 hc),
   fun hc => h23.2.2.2 (h12.2.2.2 hc)⟩

theorem evolve_errorsOnly (st : AnalyzerState) (newErrors : List String)
    (h : ∀ a ∈ st.errors, a ∈ newErrors) :
    StateEvolves st { st with errors := newErrors } := by
  refine ⟨rfl, h, ?_, ?_⟩
  · intro hc i hi
    exact h _ (hc i hi)
  · intro hc d hd c hcd
    exact h _ (hc d hd c hcd)

theorem evolve_raise (st : AnalyzerState) (info : ErrorInfo) :
    StateEvolves st
      { st with errors := setInsert info.code st.errors
                errorDetails := st.errorDetails ++ [info] } := by
  refine ⟨rfl, fun a ha => setInsert_mono _ ha, ?_, ?_⟩
  · intro hc i hi
    rcases List.mem_append.mp hi with h1 | h2
    · exact setInsert_mono _ (hc i h1)
    · rw [List.mem_singleton.mp h2]
      exact mem_setInsert_self _ _
  · intro hc d hd c hcd
    exact setInsert_mono _ (hc d hd c hcd)

theorem analyzeCallContext_evolves (node : Expr) (st : AnalyzerState) :
    StateEvolves st (analyzeCallContext node st) := by
  unfold analyzeCallContext addSqlalchemyErrors
  dsimp only
  split
  · exact evolve_errorsOnly _ _ (fun a ha => setUnionList_mono _ ha)
  · split
    · exact evolve_errorsOnly _ _ (fun a ha => setInsert_mono _ ha)
    · split
      · exact evolve_errorsOnly _ _ (fun a ha => setUnionList_mono _ ha)
      · exact stateEvolvesRefl st

theorem analyzeBuiltinFunction_evolves (f : PyFunction) (st : AnalyzerState) :
    StateEvolves st (analyzeBuiltinFunction f st) := by
  unfold analyzeBuiltinFunction addSqlalchemyErrors
  split
  · exact evolve_errorsOnly _ _ (fun a ha => setUnionList_mono _ ha)
  · split
    · exact evolve_errorsOnly _ _ (fun a ha => setInsert_mono _ ha)
    · split
      · exact evolve_errorsOnly _ _ (fun a ha => setUnionList_mono _ ha)
      · exact stateEvolvesRefl st

theorem analyzeDecoratorLine_evolves (line : String) (st : AnalyzerState) :
    StateEvolves st (analyzeDecoratorLine line st) := by
  unfold analyzeDecoratorLine
  dsimp only
  split
  · refine ⟨rfl, fun a ha => setUnionList_mono _ ha, ?_, ?_⟩
    · intro hc i hi
      exact setUnionList_mono _ (hc i hi)
    · intro hc d hd c hcd
      rcases List.mem_append.mp hd with h1 | h2
      · exact setUnionList_mono _ (hc d h1 c hcd)
      · rw [List.mem_singleton.mp h2] at hcd
        exact mem_setUnionList_right _ hcd
  · exact stateEvolvesRefl st

theorem foldlLine_evolves (g : String → AnalyzerState → AnalyzerState)
    (hg : ∀ x st, StateEvolves st (g x st)) (l : List String) (st : AnalyzerState) :
    StateEvolves st (l.foldl (fun acc x => g x acc) st) := by
  induction l generalizing st with
  | nil => exact stateEvolvesRefl st
  | cons x xs ih =>
    simp only [List.foldl_cons]
    exact stateEvolvesTrans (hg x st) (ih (g x st))

theorem analyzeDecorators_evolves (f : PyFunction) (st : AnalyzerState) :
    StateEvolves st (analyzeDecorators f st) := by
  unfold analyzeDecorators
  split
  · exact stateEvolvesRefl st
  · exact foldlLine_evolves analyzeDecoratorLine analyzeDecoratorLine_evolves _ st

mutual

theorem visitStmt_evolves (st : AnalyzerState) (s : Stmt) :
    StateEvolves st (visitStmt st s) := by
  cases s with
  | raiseS exc cause =>
    cases exc with
    | none =>
      cases cause with
      | none => exact stateEvolvesRefl st
      | some c => exact visitExpr_evolves st c
    | some e =>
      cases hinfo : extractErrorInfo e with
      | none =>
        cases cause with
        | none =>
          simp only [visitStmt, hinfo]
          exact visitExpr_evolves st e
        | some c =>
          simp only [visitStmt, hinfo]
          exact stateEvolvesTrans (visitExpr_evolves st e) (visitExpr_evolves _ c)
      | some info =>
        cases cause with
        | none =>
          simp only [visitStmt, hinfo]
          exact stateEvolvesTrans (evolve_raise st info) (visitExpr_evolves _ e)
        | some c =>
          simp only [visitStmt, hinfo]
          exact stateEvolvesTrans (evolve_raise st info)
            (stateEvolvesTrans (visitExpr_evolves _ e) (visitExpr_evolves _ c))
  | exprS e => exact visitExpr_evolves st e
  | otherS es body =>
    exact stateEvolvesTrans (visitExprList_evolves st es) (visitStmtList_evolves _ body)

theorem visitExpr_evolves (st : AnalyzerState) (e : Expr) :
    StateEvolves st (visitExpr st e) := by
  cases e with
  | call f args kws ln =>
    cases f with
    | constant v =>
      exact stateEvolvesTrans (analyzeCallContext_evolves _ st)
        (stateEvolvesTrans (visitExpr_evolves _ (.constant v))
          (stateEvolvesTrans (visitExprList_evolves _ args) (visitKwList_evolves _ kws)))
    | name id ln2 =>
      exact stateEvolvesTrans (analyzeCallContext_evolves _ st)
        (stateEvolvesTrans (visitExpr_evolves _ (.name id ln2))
          (stateEvolvesTrans (visitExprList_evolves _ args) (visitKwList_evolves _ kws)))
    | attributeE v a =>
      exact stateEvolvesTrans (analyzeCallContext_evolves _ st)
        (stateEvolvesTrans (visitExpr_evolves _ (.attributeE v a))
          (stateEvolvesTrans (visitExprList_evolves _ args) (visitKwList_evolves _ kws)))
    | call g gargs gkws gln =>
      exact stateEvolvesTrans (analyzeCallContext_evolves _ st)
        (stateEvolvesTrans (visitExpr_evolves _ (.call g gargs gkws gln))
          (stateEvolvesTrans (visitExprList_evolves _ args) (visitKwList_evolves _ kws)))
    | awaitE v =>
      exact stateEvolvesTrans (analyzeCallContext_evolves _ st)
        (stateEvolvesTrans (visitExpr_evolves _ (.awaitE v))
          (stateEvolvesTrans (visitExprList_evolves _ args) (visitKwList_evolves _ kws)))
    | otherE es =>
      exact stateEvolvesTrans (analyzeCallContext_evolves _ st)
        (stateEvolvesTrans (visitExpr_evolves _ (.otherE es))
          (stateEvolvesTrans (visitExprList_evolves _ args) (visitKwList_evolves _ kws)))
  | attributeE v a => exact visitExpr_evolves st v
  | awaitE v => exact visitExpr_evolves st v
  | name id ln => exact stateEvolvesRefl st
  | constant v => exact stateEvolvesRefl st
  | otherE es => exact visitExprList_evolves st es

theorem visitStmtList_evolves (st : AnalyzerState) (l : List Stmt) :
    StateEvolves st (visitStmtList st l) := by
  cases l with
  | nil => exact stateEvolvesRefl st
  | cons s ss =>
    exact stateEvolvesTrans (visitStmt_evolves st s) (visitStmtList_evolves _ ss)

theorem visitExprList_evolves (st : AnalyzerState) (l : List Expr) :
    StateEvolves st (visitExprList st l) := by
  cases l with
  | nil => exact stateEvolvesRefl st
  | cons e es =>
    exact stateEvolvesTrans (visitExpr_evolves st e) (visitExprList_evolves _ es)

theorem visitKwList_evolves (st : AnalyzerState) (l : List (Option String × Expr)) :
    StateEvolves st (visitKwList st l) := by
  cases l with
  | nil => exact stateEvolvesRefl st
  | cons k ks =>
    exact stateEvolvesTrans (visitExpr_evolves st k.2) (visitKwList_evolves _ ks)

end

theorem weakEvolvesRefl (st : AnalyzerState) :
    (∀ a ∈ st.errors, a ∈ st.errors) ∧
    (detailsCovered st → detailsCovered st) ∧
    (decoratorsCovered st → decoratorsCovered st) :=
  ⟨fun _ h => h, fun h => h, fun h => h⟩

theorem analyzeFunction_ok_weak {maxD : Int} {f : PyFunction} {isMain : Bool}
    {st st' : AnalyzerState} (h : analyzeFunction maxD f isMain st = .ok st') :
    (∀ a ∈ st.errors, a ∈ st'.errors) ∧
    (detailsCovered st → detailsCovered st') ∧
    (decoratorsCovered st → decoratorsCovered st') := by
  unfold analyzeFunction at h
  split at h
  · cases h
    exact weakEvolvesRefl st
  · dsimp only at h
    split at h
    · cases h
      exact weakEvolvesRefl st
    · split at h
      · -- `f.source = none`: `_analyze_builtin_function` fallback
        by_cases hm : isMain = false
        · simp only [if_pos hm] at h
          cases h
          obtain ⟨-, hmono, hdet, hdec⟩ := analyzeBuiltinFunction_evolves f
            { st with
                visitedFunctions :=
                  setInsert (f.module ++ "." ++ f.qualname) st.visitedFunctions
                currentDepth := st.currentDepth + 1 }
          exact ⟨hmono, hdet, hdec⟩
        · simp only [if_neg hm] at h
          cases h
          obtain ⟨-, hmono, hdet, hdec⟩ := analyzeBuiltinFunction_evolves f
            { st with
                visitedFunctions :=
                  setInsert (f.module ++ "." ++ f.qualname) st.visitedFunctions }
          exact ⟨hmono, hdet, hdec⟩
      · -- `f.source = some src`
        rename_i src hsrc
        split at h
        · exact Except.noConfusion h
        · rename_i tree htree
          by_cases hm : isMain = false
          · simp only [if_pos hm] at h
            cases h
            obtain ⟨-, hmono, hdet, hdec⟩ := visitStmtList_evolves
              { st with
                  visitedFunctions :=
                    setInsert (f.module ++ "." ++ f.qualname) st.visitedFunctions
                  currentDepth := st.currentDepth + 1 } tree
            exact ⟨hmono, hdet, hdec⟩
          · simp only [if_neg hm] at h
            cases h
            obtain ⟨-, hmono, hdet, hdec⟩ := visitStmtList_evolves
              { st with
                  visitedFunctions :=
                    setInsert (f.module ++ "." ++ f.qualname) st.visitedFunctions } tree
            exact ⟨hmono, hdet, hdec⟩

theorem visitModule_evolves (st : AnalyzerState) (m : List Stmt) :
    StateEvolves st (visitModule st m) :=
  visitStmtList_evolves st m

theorem analyzeFunction_ok_depth {maxD : Int} {f : PyFunction} {isMain : Bool}
    {st st' : AnalyzerState} (h : analyzeFunction maxD f isMain st = .ok st') :
    st'.currentDepth = st.currentDepth := by
  unfold analyzeFunction at h
  split at h
  · cases h
    rfl
  · dsimp only at h
    split at h
    · cases h
      rfl
    · split at h
      · by_cases hm : isMain = false
        · simp only [if_pos hm] at h
          cases h
          have hd := (analyzeBuiltinFunction_evolves f
            { st with
                visitedFunctions :=
                  setInsert (f.module ++ "." ++ f.qualname) st.visitedFunctions
                currentDepth := st.currentDepth + 1 }).1
          dsimp only at hd ⊢
          omega
        · simp only [if_neg hm] at h
          cases h
          exact (analyzeBuiltinFunction_evolves f
            { st with
                visitedFunctions :=
                  setInsert (f.module ++ "." ++ f.qualname) st.visitedFunctions }).1
      · rename_i src hsrc
        split at h
        · exact Except.noConfusion h
        · rename_i tree htree
          by_cases hm : isMain = false
          · simp only [if_pos hm] at h
            cases h
            have hd := (visitModule_evolves
              { st with
                  visitedFunctions :=
                    setInsert (f.module ++ "." ++ f.qualname) st.visitedFunctions
                  currentDepth := st.currentDepth + 1 } tree).1
            dsimp only at hd ⊢
            omega
          · simp only [if_neg hm] at h
            cases h
            exact (visitModule_evolves
              { st with
                  visitedFunctions :=
                    setInsert (f.module ++ "." ++ f.qualname) st.visitedFunctions } tree).1

theorem decoratorPhase_evolves (f : PyFunction) (a : Bool) :
    StateEvolves initState (if a then analyzeDecorators f initState else initState) := by
  by_cases ha : a = true
  · simp only [if_pos ha]
    exact analyzeDecorators_evolves f initState
  · simp only [if_neg ha]
    exact stateEvolvesRefl initState

theorem analyzeWithState_ok_depth {f : PyFunction} {d : Int} {a : Bool}
    {st : AnalyzerState} {r : AnalysisResult} {stF : AnalyzerState}
    (h : analyzeWithState f d a st = .ok (r, stF)) :
    r.analysisDepth = 0 ∧ (r.maxDepthReached = true ↔ d ≤ 0) := by
  unfold analyzeWithState at h
  dsimp only at h
  split at h
  · exact Except.noConfusion h
  · rename_i st2 hA
    cases h
    have h1 := analyzeFunction_ok_depth hA
    have h0 := (decoratorPhase_evolves f a).1
    have hdepth : stF.currentDepth = 0 := by
      rw [h1, h0]
      rfl
    constructor
    · exact hdepth
    · show decide (stF.currentDepth ≥ d) = true ↔ d ≤ 0
      rw [hdepth]
      simp [ge_iff_le]

theorem analyzeWithState_ok_covered {f : PyFunction} {d : Int} {a : Bool}
    {st : AnalyzerState} {r : AnalysisResult} {stF : AnalyzerState}
    (h : analyzeWithState f d a st = .ok (r, stF)) :
    (∀ i ∈ r.errorDetails, i.code ∈ r.errorCodes) ∧
    (∀ de ∈ r.decoratorErrors, ∀ c ∈ de.possibleErrors, c ∈ r.errorCodes) := by
  unfold analyzeWithState at h
  dsimp only at h
  split at h
  · exact Except.noConfusion h
  · rename_i st2 hA
    cases h
    have hini1 : detailsCovered initState := by
      intro i hi
      cases hi
    have hini2 : decoratorsCovered initState := by
      intro dd hd
      cases hd
    have hev := decoratorPhase_evolves f a
    have hw := analyzeFunction_ok_weak hA
    have hc1 : detailsCovered stF := hw.2.1 (hev.2.2.1 hini1)
    have hc2 : decoratorsCovered stF := hw.2.2 (hev.2.2.2 hini2)
    constructor
    · intro i hi
      exact (mem_pySorted _ _).mpr (hc1 i hi)
    · intro de hd c hcd
      exact (mem_pySorted _ _).mpr (hc2 de hd c hcd)

theorem attrChainParts_noSpace : ∀ e : Expr, chainOk e = true →
    ∀ p ∈ attrChainParts e, ' ' ∉ p.data
  | .name id ln, h, p, hp => by
    simp only [attrChainParts, List.mem_singleton] at hp
    subst hp
    exact of_decide_eq_true h
  | .attributeE v a, h, p, hp => by
    simp only [chainOk, Bool.and_eq_true] at h
    simp only [attrChainParts, List.mem_cons] at hp
    rcases hp with rfl | hp
    · exact of_decide_eq_true h.1
    · exact attrChainParts_noSpace v h.2 p hp
  | .constant v, _, p, hp => by simp [attrChainParts] at hp
  | .call g gargs gkws gln, _, p, hp => by simp [attrChainParts] at hp
  | .awaitE v, _, p, hp => by simp [attrChainParts] at hp
  | .otherE es, _, p, hp => by simp [attrChainParts] at hp

theorem joinDot_noSpace : ∀ l : List String, (∀ p ∈ l, ' ' ∉ p.data) →
    ' ' ∉ (joinDot l).data
  | [], _ => by simp [joinDot]
  | [p], h => h p (by simp)
  | p :: q :: rest, h => by
    intro hmem
    rw [joinDot, string_data_append, string_data_append] at hmem
    rcases List.mem_append.mp hmem with h1 | h2
    · rcases List.mem_append.mp h1 with h3 | h4
      · exact h p (by simp) h3
      · simp at h4
    · exact joinDot_noSpace (q :: rest) (fun x hx => h x (List.mem_cons_of_mem p hx)) h2

theorem getCallString_noSpace (f : Expr) (args : List Expr)
    (kws : List (Option String × Expr)) (ln : Option Nat) (h : chainOk f = true) :
    ' ' ∉ (getCallString (.call f args kws ln)).data := by
  cases f with
  | name id ln2 =>
    show ' ' ∉ (id ++ "()").data
    rw [string_data_append]
    intro hmem
    rcases List.mem_append.mp hmem with h1 | h2
    · exact of_decide_eq_true h h1
    · simp at h2
  | attributeE v a =>
    show ' ' ∉ (getAttrChain (.attributeE v a) ++ "()").data
    rw [string_data_append]
    intro hmem
    rcases List.mem_append.mp hmem with h1 | h2
    · refine joinDot_noSpace (attrChainParts (.attributeE v a)).reverse ?_ h1
      intro p hp
      exact attrChainParts_noSpace (.attributeE v a) h p (List.mem_reverse.mp hp)
    · simp at h2
  | constant v => simp [getCallString]
  | call g gargs gkws gln => simp [getCallString]
  | awaitE v => simp [getCallString]
  | otherE es => simp [getCallString]

theorem getCallString_noAwait (f : Expr) (args : List Expr)
    (kws : List (Option String × Expr)) (ln : Option Nat) (h : chainOk f = true) :
    pyIn (getCallString (.call f args kws ln)) "await " = false := by
  cases hval : pyIn (getCallString (.call f args kws ln)) "await " with
  | false => rfl
  | true =>
    have hsp : ' ' ∈ (getCallString (.call f args kws ln)).data :=
      pyIn_mem hval ' ' (by decide)
    exact absurd hsp (getCallString_noSpace f args kws ln h)

/-- C1 counterexample: `helperF` raises a recognized failure constructor
whose code is `VALIDATION_FAILED` (first conjunct), `main_route` merely
calls `helper()` — a plain invocation of a routine with retrievable source —
yet its `codes` set is empty (second conjunct) and in particular does not
contain the helper's failure code (third conjunct), contradicting the claim
that the helper's code appears in the routine's codes. -/
theorem c1_counterexample :
    (analyzeWithState helperF 10 true initState).map (fun p => p.1.errorCodes) =
      .ok ["VALIDATION_FAILED"] ∧
    (analyzeWithState mainF 10 true initState).map (fun p => p.1.errorCodes) =
      .ok [] ∧
    (analyzeWithState mainF 10 true initState).map
      (fun p => decide ("VALIDATION_FAILED" ∈ p.1.errorCodes)) = .ok false :=
  ⟨rfl, rfl, rfl⟩

/-- C1 amended: `_resolve_function_call` and `_resolve_method_call` are
stubs that always return `None`, so no call is ever resolved and no
recursion into callees occurs; in particular, for `main_route`, whatever
the depth budget and whatever state is left in the analyzer, the helper's
failure code never appears — the result's codes come only from the
routine's own raise sites, pattern matching and markers. -/
theorem c1_amended :
    (∀ node : Expr, resolveFunctionCall node = none) ∧
    (∀ node : Expr, resolveMethodCall node = none) ∧
    (∀ stPrior : AnalyzerState,
      (analyzeWithState mainF 10 true stPrior).map (fun p => p.1.errorCodes) =
        .ok []) :=
  ⟨fun _ => rfl, fun _ => rfl, fun _ => rfl⟩

/-- C2 counterexample: analyzing `main_route` (which has a callee) with
`max_depth = 0` reports `max_depth_reached = true`, not `false` as the
claim states: the flag is computed at the end of `analyze` as
`current_depth >= max_depth` with the depth counter back at `0`. -/
theorem c2_counterexample :
    (analyzeWithState mainF 0 true initState).map (fun p => p.1.maxDepthReached) =
      .ok true :=
  rfl

/-- C2 amended: whenever `analyze` returns, the reported `analysis_depth`
is `0` (the counter's increments and decrements balance and the main entry
is exempt) and `max_depth_reached` is true iff `max_depth ≤ 0` — the flag
never reflects whether any descent was truncated. -/
theorem c2_amended {f : PyFunction} {d : Int} {a : Bool} {st : AnalyzerState}
    {r : AnalysisResult} {stF : AnalyzerState}
    (h : analyzeWithState f d a st = .ok (r, stF)) :
    r.analysisDepth = 0 ∧ (r.maxDepthReached = true ↔ d ≤ 0) :=
  analyzeWithState_ok_depth h

/-- C2 amended, witness at `mainF` with `max_depth = 0`. -/
theorem c2_amended_witness :
    analyzeWithState mainF 0 true initState = .ok (mainRes0, mainSt0) ∧
    (mainRes0.analysisDepth = 0 ∧ (mainRes0.maxDepthReached = true ↔ (0 : Int) ≤ 0)) :=
  ⟨rfl, @c2_amended mainF 0 true initState mainRes0 mainSt0 rfl⟩

/-- C3 counterexample: a callable whose source is retrievable but does not
parse (e.g. a lambda inside a multi-line expression, where
`inspect.getsource` returns the fragment `"f = (lambda: 1,"`) makes
`analyze` raise: `ast.parse`'s `SyntaxError` is not caught by the
`except (OSError, TypeError)` clause, so an exception escapes `analyze`,
contradicting the claim that analyze always returns normally. -/
theorem c3_counterexample :
    analyzeWithState badF 10 true initState = .error PyExn.parseFailed :=
  rfl

/-- Failure analysis of `_analyze_function`: the only way it raises is a
retrievable source that does not parse. -/
theorem analyzeFunction_error_source {maxD : Int} {f : PyFunction} {isMain : Bool}
    {st : AnalyzerState} {e : PyExn}
    (hA : analyzeFunction maxD f isMain st = .error e) :
    ∃ src, f.source = some src ∧ src.tree = none := by
  unfold analyzeFunction at hA
  split at hA
  · exact Except.noConfusion hA
  · dsimp only at hA
    split at hA
    · exact Except.noConfusion hA
    · split at hA
      · exact Except.noConfusion hA
      · rename_i src hsrc
        split at hA
        · rename_i htree
          exact ⟨src, hsrc, htree⟩
        · exact Except.noConfusion hA

/-- C3 amended: `analyze` returns normally provided every retrievable
source parses; a failure to retrieve the source (`OSError`/`TypeError`) is
absorbed by the builtin-heuristics fallback, but a parse failure
propagates. -/
theorem c3_amended (f : PyFunction) (d : Int) (a : Bool) (st : AnalyzerState)
    (h : ∀ src, f.source = some src → src.tree ≠ none) :
    ∃ out, analyzeWithState f d a st = .ok out := by
  unfold analyzeWithState
  dsimp only
  cases hA : analyzeFunction d f true
      (if a then analyzeDecorators f initState else initState) with
  | ok st2 =>
    exact ⟨({ functionName := f.name, errorCodes := pySorted st2.errors,
              errorDetails := st2.errorDetails, decoratorErrors := st2.decoratorErrors,
              totalErrors := st2.errors.length, analysisDepth := st2.currentDepth,
              maxDepthReached := decide (st2.currentDepth ≥ d) }, st2), rfl⟩
  | error e =>
    exfalso
    obtain ⟨src, hsrc, htree⟩ := analyzeFunction_error_source hA
    exact h src hsrc htree

/-- C3 amended, witness at `helperF` (whose source parses). -/
theorem c3_amended_witness :
    ∃ out, analyzeWithState helperF 10 true initState = .ok out :=
  c3_amended helperF 10 true initState
    (by
      intro src hsrc
      injection hsrc with h2
      subst h2
      simp)

/-- C4 counterexample: analyzing `save_user` — whose body is the single
call `session.execute(u)` — yields seven database failure codes while both
`error_details` (occurrences) and `decorator_errors` (annotation records)
are empty: the pattern-catalog branch of `_analyze_call_context` updates
`self.errors` without appending any record, so `codes` is strictly larger
than the set of codes across occurrences plus annotation-predicted codes. -/
theorem c4_counterexample :
    (analyzeWithState sqlF 10 true initState).map
      (fun p => (p.1.errorCodes, p.1.errorDetails, p.1.decoratorErrors)) =
    .ok (["DB_CONNECTION_ERROR", "DB_CONSTRAINT_VIOLATION", "DB_DUPLICATE_ENTRY",
          "DB_INVALID_REFERENCE", "DB_MISSING_REQUIRED", "DB_QUERY_ERROR",
          "DB_TRANSACTION_ERROR"], [], []) :=
  rfl

/-- C4 amended: `codes` is a superset of the `code` values across
`occurrences` united with the annotation-predicted codes — every
occurrence's code and every annotation-predicted code is in `codes` — but
the inclusion can be strict: pattern-catalog and builtin-heuristic codes
enter `codes` with no corresponding record. -/
theorem c4_amended {f : PyFunction} {d : Int} {a : Bool} {st : AnalyzerState}
    {r : AnalysisResult} {stF : AnalyzerState}
    (h : analyzeWithState f d a st = .ok (r, stF)) :
    (∀ i ∈ r.errorDetails, i.code ∈ r.errorCodes) ∧
    (∀ de ∈ r.decoratorErrors, ∀ c ∈ de.possibleErrors, c ∈ r.errorCodes) :=
  analyzeWithState_ok_covered h

/-- C4 amended, witness at `sqlF`. -/
theorem c4_amended_witness :
    analyzeWithState sqlF 10 true initState = .ok (sqlRes, sqlSt) ∧
    ((∀ i ∈ sqlRes.errorDetails, i.code ∈ sqlRes.errorCodes) ∧
     (∀ de ∈ sqlRes.decoratorErrors, ∀ c ∈ de.possibleErrors, c ∈ sqlRes.errorCodes)) :=
  ⟨rfl, @c4_amended sqlF 10 true initState sqlRes sqlSt rfl⟩

/-- C5 counterexample: `load` contains the awaited call `await fetch()`,
yet its `codes` set is empty — neither `INTERNAL_ERROR` nor `TIMEOUT_ERROR`
is added, contradicting the claim that awaited call shapes imply both. -/
theorem c5_counterexample :
    (analyzeWithState awaitF 10 true initState).map (fun p => p.1.errorCodes) =
      .ok [] ∧
    (analyzeWithState awaitF 10 true initState).map
      (fun p => decide ("INTERNAL_ERROR" ∈ p.1.errorCodes) ||
                decide ("TIMEOUT_ERROR" ∈ p.1.errorCodes)) = .ok false :=
  ⟨rfl, rfl⟩

/-- C5 amended: the `"await " in call_str` branch of
`_analyze_call_context` is dead code.  The visitor reaches an awaited call
through the `ast.Await` wrapper, which contributes nothing itself (first
conjunct), and the call string built by `_get_call_string` is the dotted
name chain followed by `"()"`, which for space-free (i.e. syntactically
valid) identifiers can never contain the substring `"await "` (second
conjunct), so awaited calls never add `INTERNAL_ERROR`/`TIMEOUT_ERROR`
through this branch. -/
theorem c5_amended :
    (∀ (st : AnalyzerState) (v : Expr),
      visitExpr st (Expr.awaitE v) = visitExpr st v) ∧
    (∀ (f : Expr) (args : List Expr) (kws : List (Option String × Expr))
      (ln : Option Nat), chainOk f = true →
      pyIn (getCallString (Expr.call f args kws ln)) "await " = false) :=
  ⟨fun _ _ => rfl, fun f args kws ln h => getCallString_noAwait f args kws ln h⟩

/-- C5 amended, witness at the call `fetch()`. -/
theorem c5_amended_witness :
    chainOk (Expr.name "fetch" none) = true ∧
    pyIn (getCallString (Expr.call (Expr.name "fetch" none) [] [] none)) "await " =
      false :=
  ⟨by decide, c5_amended.2 (Expr.name "fetch" none) [] [] none (by decide)⟩

/-- C6: `analyze` starts by resetting every mutable instance field
(`errors`, `error_details`, `visited_functions`, `decorator_errors`,
`current_depth`), so a second run on the same target with the same
`max_depth` and annotation flag — starting from the state the first run
left behind — returns the identical result and final state: identical
`codes` (even as lists) and identical `occurrences` ordering. -/
theorem c6_idempotent (f : PyFunction) (d : Int) (a : Bool) (st : AnalyzerState)
    (p : AnalysisResult × AnalyzerState)
    (h : analyzeWithState f d a st = .ok p) :
    analyzeWithState f d a p.2 = .ok p :=
  h

/-- C6 witness: rerunning on `helperF` from the first run's final state. -/
theorem c6_idempotent_witness :
    analyzeWithState helperF 10 true helperSt = .ok (helperRes, helperSt) :=
  c6_idempotent helperF 10 true initState (helperRes, helperSt) rfl

/-- C7: cycle safety.  First conjunct: the visited-set guard — calling
`_analyze_function` on any callee whose qualified name is already in
`visited_functions` returns with the state unchanged (and the embedding
being a total function witnesses termination).  Second conjunct: analyzing
`func_a` of the cyclic graph `func_a → func_b → func_a` records `func_a`'s
failure occurrence exactly once, no more than a single visit produces. -/
theorem c7_cycle_safe :
    (∀ (maxD : Int) (f : PyFunction) (st : AnalyzerState),
      (f.module ++ "." ++ f.qualname) ∈ st.visitedFunctions →
      analyzeFunction maxD f false st = .ok st) ∧
    (analyzeWithState funcA 10 true initState).map
      (fun p => p.1.errorDetails.map (fun i => i.code)) =
      .ok ["RESOURCE_NOT_FOUND"] := by
  constructor
  · intro maxD f st hmem
    unfold analyzeFunction
    split
    · rfl
    · dsimp only
      rw [if_pos hmem]
  · rfl

/-- C7 witness: the guard applied to `func_b` when its qualified name
`app.cycle.func_b` is already in the visited set. -/
theorem c7_cycle_safe_witness :
    ("app.cycle" ++ "." ++ "func_b") ∈ visitedStB.visitedFunctions ∧
    analyzeFunction 10 funcB false visitedStB = .ok visitedStB :=
  ⟨by decide, c7_cycle_safe.1 10 funcB visitedStB (by decide)⟩

/-- C8: synthesizing from the discovered set `{"X_NOT_FOUND"}` with
`additional = ["RATE_LIMITED"]` and `exclude = ["X_NOT_FOUND"]` first
unions the additional codes into the discovered set, then removes the
excluded ones, leaving exactly `{RATE_LIMITED}`; that unknown code maps to
status `500`, so the document has the single status group `"500"` whose
description, `code` enum and example mention exactly `RATE_LIMITED`. -/
theorem c8_synthesize :
    (synthesizeResponseDocument ["X_NOT_FOUND"] ["RATE_LIMITED"] ["X_NOT_FOUND"] []).map
      (fun p => p.1) = ["500"] ∧
    (synthesizeResponseDocument ["X_NOT_FOUND"] ["RATE_LIMITED"] ["X_NOT_FOUND"] []).map
      (fun p => p.2.description) =
      ["Internal Server Error - Server errors. Possible error codes: RATE_LIMITED"] ∧
    (synthesizeResponseDocument ["X_NOT_FOUND"] ["RATE_LIMITED"] ["X_NOT_FOUND"] []).map
      (fun p => p.2.schema) = [responseSchemaFor ["RATE_LIMITED"]] ∧
    (synthesizeResponseDocument ["X_NOT_FOUND"] ["RATE_LIMITED"] ["X_NOT_FOUND"] []).map
      (fun p => p.2.examples.map (fun q => q.1)) = [["rate-limited"]] ∧
    (synthesizeResponseDocument ["X_NOT_FOUND"] ["RATE_LIMITED"] ["X_NOT_FOUND"] []).map
      (fun p => p.2.examples.map (fun q => q.2.value)) =
      [[JVal.obj [("error", JVal.obj
          [("code", JVal.str "RATE_LIMITED"),
           ("message", JVal.str "Error: RATE_LIMITED"),
           ("details", JVal.obj []),
           ("timestamp", JVal.str "2024-01-08T12:00:00Z"),
           ("request_id", JVal.str "req_abc123")])]]] :=
  ⟨rfl, rfl, rfl, rfl, rfl⟩

/-- C9: the decorator scan of `_analyze_decorators` only stops at stripped
lines starting with `"def "`, so for the `async`-defined routine `outer` it
walks past the `async def` header into the body and collects the nested
function's `@rate_limit` marker (first conjunct), and the analysis result
therefore contains the body marker's prediction `RATE_LIMIT_EXCEEDED`
alongside `require_auth`'s codes (second conjunct) — the code contributes
marker codes from inside the routine's body, against the documented
contract that only lines preceding the definition count. -/
theorem c9_async_decorator_scan :
    collectDecoratorLines ["@require_auth", "async def outer():", "    @rate_limit",
                           "    def inner():", "        pass"] =
      ["@require_auth", "@rate_limit"] ∧
    (analyzeWithState asyncOuterF 10 true initState).map
      (fun p => (p.1.decoratorErrors.map (fun de => de.decorator), p.1.errorCodes)) =
      .ok (["require_auth", "rate_limit"],
           ["AUTH_PERMISSION_DENIED", "AUTH_REQUIRED", "RATE_LIMIT_EXCEEDED"]) :=
  ⟨rfl, rfl⟩

/-- C10: raising `HTTPException` gets dedicated handling.  The fixed status
map is 400→VALIDATION_FAILED, 401→AUTH_REQUIRED, 403→AUTH_PERMISSION_DENIED,
404→RESOURCE_NOT_FOUND, 409→RESOURCE_CONFLICT, 422→BUSINESS_RULE_VIOLATION,
500→INTERNAL_ERROR (first conjunct), any other status yields
`HTTP_EXCEPTION` (second conjunct); with no status argument the status is
assumed 500, giving code `INTERNAL_ERROR` (third conjunct); a
`status_code` keyword integer literal drives the code through the map
(fourth conjunct); and a first positional integer literal likewise drives
the code through the map, for any remaining arguments (fifth conjunct). -/
theorem c10_http_exception :
    (mapStatusCodeToErrorCode 400 = "VALIDATION_FAILED" ∧
     mapStatusCodeToErrorCode 401 = "AUTH_REQUIRED" ∧
     mapStatusCodeToErrorCode 403 = "AUTH_PERMISSION_DENIED" ∧
     mapStatusCodeToErrorCode 404 = "RESOURCE_NOT_FOUND" ∧
     mapStatusCodeToErrorCode 409 = "RESOURCE_CONFLICT" ∧
     mapStatusCodeToErrorCode 422 = "BUSINESS_RULE_VIOLATION" ∧
     mapStatusCodeToErrorCode 500 = "INTERNAL_ERROR") ∧
    (∀ s : Int, s ∉ ([400, 401, 403, 404, 409, 422, 500] : List Int) →
      mapStatusCodeToErrorCode s = "HTTP_EXCEPTION") ∧
    (∀ ln : Option Nat,
      extractErrorInfo (Expr.call (Expr.name "HTTPException" none) [] [] ln) =
        some { type := "HTTPException", code := "INTERNAL_ERROR",
               message := "HTTP Error", statusCode := some 500, line := ln }) ∧
    (∀ (s : Int) (ln : Option Nat),
      extractErrorInfo (Expr.call (Expr.name "HTTPException" none) []
          [(some "status_code", Expr.constant (PyConst.int s))] ln) =
        some { type := "HTTPException", code := mapStatusCodeToErrorCode s,
               message := "HTTP Error", statusCode := some s, line := ln }) ∧
    (∀ (s : Int) (args : List Expr) (kws : List (Option String × Expr))
      (ln : Option Nat), ∃ m,
      extractErrorInfo (Expr.call (Expr.name "HTTPException" none)
          (Expr.constant (PyConst.int s) :: args) kws ln) =
        some { type := "HTTPException", code := mapStatusCodeToErrorCode s,
               message := m, statusCode := some s, line := ln }) := by
  refine ⟨⟨rfl, rfl, rfl, rfl, rfl, rfl, rfl⟩, ?_, fun ln => rfl, fun s ln => rfl,
    fun s args kws ln => ⟨(httpKwFold kws (500, "HTTP Error")).2, rfl⟩⟩
  intro s hs
  simp only [List.mem_cons, List.mem_singleton, not_or] at hs
  obtain ⟨h1, h2, h3, h4, h5, h6, h7⟩ := hs
  simp only [mapStatusCodeToErrorCode, if_neg h1, if_neg h2, if_neg h3, if_neg h4,
    if_neg h5, if_neg h6, if_neg h7.1]

/-- C10 witness: status `418` is outside the fixed map and yields
`HTTP_EXCEPTION`. -/
theorem c10_http_exception_witness :
    (418 : Int) ∉ ([400, 401, 403, 404, 409, 422, 500] : List Int) ∧
    mapStatusCodeToErrorCode 418 = "HTTP_EXCEPTION" :=
  ⟨by decide, c10_http_exception.2.1 418 (by decide)⟩
